import Mathlib

/-!
Shallow embedding of the order-creation / payment-reconciliation workflow of
the AGM store-builder backend (FastAPI + SQLAlchemy), restricted to the parts
the verified claims are about:

* `app/models/{product,store,order,payment}.py` — rows, modelled as structures;
  the `deleted_at IS NULL` soft-delete test is modelled as a Boolean `deleted`
  flag, and timestamps as abstract `Nat` instants supplied by the caller.
* `app/repositories/{product,store,order,payment}_repository.py` — queries and
  single-row conditional updates over an in-memory database value `DB`.
* `app/services/order_service.py`, `app/services/payment_service.py`,
  `app/services/monnify_service.py`, `app/api/v1/webhooks.py` — the service
  layer; network I/O (the Monnify gateway) is modelled by passing the gateway
  outcome in as a parameter, and Python's nondeterminism (uuid/random/now) by
  explicit parameters.

Monetary values (Python floats in the source) are modelled as `Rat`; no claim
below depends on binary-float rounding.  Pass-through customer/delivery fields
that no claim mentions are omitted from the row structures.
-/

namespace AGM

/-- Stock operation selector of `ProductRepository.update_stock`
(`"set" | "increment" | "decrement"`). -/
inductive StockOp where
  | set
  | increment
  | decrement
deriving Repr, DecidableEq

/-- A row of the `products` table (`app/models/product.py`); `deleted` models
`deleted_at IS NOT NULL` (the `SoftDeleteMixin`).  `stock_quantity` is an SQL
integer column, so it is an `Int` (the code itself keeps it non-negative only
through the saturating decrement). -/
structure Product where
  id : Nat
  store_id : Nat
  name : String
  price : Rat
  stock_quantity : Int
  is_active : Bool
  deleted : Bool
deriving Repr, DecidableEq

/-- A row of the `stores` table (the fields the order workflow reads). -/
structure Store where
  id : Nat
  user_id : Nat
  username : String
  is_active : Bool
  deleted : Bool
deriving Repr, DecidableEq

/-- One JSON line-item snapshot embedded in `Order.items`
(built in `OrderService.create_order`, lines 74-82). -/
structure OrderItem where
  product_id : Nat
  product_name : String
  product_price : Rat
  quantity : Int
  subtotal : Rat
deriving Repr, DecidableEq

/-- A row of the `orders` table (`app/models/order.py`); `updated_at` models
the `TimestampMixin.onupdate` column, bumped by every SQL UPDATE. -/
structure Order where
  id : Nat
  store_id : Nat
  order_number : String
  items : List OrderItem
  subtotal : Rat
  discount : Rat
  shipping_fee : Rat
  agm_fee : Rat
  total : Rat
  status : String
  payment_status : String
  deleted : Bool
  updated_at : Option Nat
deriving Repr, DecidableEq

/-- A row of the `payments` table (`app/models/payment.py`); the `Payment`
model has no `SoftDeleteMixin`, so no `deleted` flag. -/
structure Payment where
  id : Nat
  order_id : Nat
  amount : Rat
  status : String
  payment_reference : String
  monnify_reference : Option String
  payment_method : Option String
  paid_at : Option Nat
  updated_at : Option Nat
deriving Repr, DecidableEq

/-- The single shared database (the only shared mutable resource). -/
structure DB where
  stores : List Store
  products : List Product
  orders : List Order
  payments : List Payment
deriving Repr, DecidableEq

/-- Python truthiness of an optional string (`if monnify_reference:` in
`PaymentRepository.update_status`): `None` and `""` are falsy. -/
def truthy : Option String → Bool
  | none => false
  | some s => s ≠ ""

/-- `UPDATE t SET ... WHERE hit` over a list of rows: every row satisfying
`hit` is replaced by `g` of it. -/
def updateWhere {α : Type} (hit : α → Bool) (g : α → α) (l : List α) : List α :=
  l.map fun a => if hit a then g a else a

namespace StoreRepository

/-- `StoreRepository.get_by_username`: username match, soft-deleted excluded
(`Store.deleted_at.is_(None)`); active/inactive is NOT filtered here. -/
def get_by_username (db : DB) (username : String) : Option Store :=
  db.stores.find? fun s => s.username == username && s.deleted == false

/-- `BaseRepository.get_by_id` for stores (soft-delete filtered). -/
def get_by_id (db : DB) (store_id : Nat) : Option Store :=
  db.stores.find? fun s => s.id == store_id && s.deleted == false

end StoreRepository

namespace ProductRepository

/-- `BaseRepository.get_by_id` for products (soft-delete filtered). -/
def get_by_id (db : DB) (product_id : Nat) : Option Product :=
  db.products.find? fun p => p.id == product_id && p.deleted == false

/-- `ProductRepository.update_stock` (lines 237-264): a read-then-write pair —
`get_by_id`, compute the new quantity in Python (`decrement` saturates at 0
via `max(0, stock - qty)`), then an unconditional `UPDATE ... WHERE id`.
Returns the database unchanged when the product is missing/deleted. -/
def update_stock (db : DB) (product_id : Nat) (quantity : Int) (operation : StockOp) : DB :=
  match get_by_id db product_id with
  | none => db
  | some product =>
    let new_quantity : Int :=
      match operation with
      | .set => quantity
      | .increment => product.stock_quantity + quantity
      | .decrement => max 0 (product.stock_quantity - quantity)
    { db with
      products := updateWhere (fun p => p.id == product_id)
        (fun p => { p with stock_quantity := new_quantity }) db.products }

end ProductRepository

namespace PaymentRepository

/-- `PaymentRepository.get_by_reference` (no soft-delete mixin on payments). -/
def get_by_reference (db : DB) (payment_reference : String) : Option Payment :=
  db.payments.find? fun p => p.payment_reference == payment_reference

/-- `PaymentRepository.update_status` (lines 44-70): always writes `status`;
writes `monnify_reference` / `payment_method` only when truthy; writes
`paid_at := now()` exactly when the NEW status is `"paid"` (even if the row
was already paid); `updated_at` is bumped by the `TimestampMixin`. -/
def update_status (db : DB) (payment_id : Nat) (status : String)
    (monnify_reference : Option String) (payment_method : Option String)
    (now : Nat) : DB :=
  { db with
    payments := updateWhere (fun p => p.id == payment_id)
      (fun p =>
        { p with
          status := status
          monnify_reference :=
            if truthy monnify_reference then monnify_reference else p.monnify_reference
          payment_method :=
            if truthy payment_method then payment_method else p.payment_method
          paid_at := if status = "paid" then some now else p.paid_at
          updated_at := some now }) db.payments }

/-- `PaymentRepository.mark_expired`: sets only `status := "expired"`
(plus the `onupdate` timestamp). -/
def mark_expired (db : DB) (payment_id : Nat) (now : Nat) : DB :=
  { db with
    payments := updateWhere (fun p => p.id == payment_id)
      (fun p => { p with status := "expired", updated_at := some now }) db.payments }

end PaymentRepository

namespace OrderRepository

/-- `OrderRepository.get_with_details` (lines 36-45): plain `WHERE id = ?`,
note there is NO soft-delete filter on this query. -/
def get_with_details (db : DB) (order_id : Nat) : Option Order :=
  db.orders.find? fun o => o.id == order_id

/-- `BaseRepository.get_by_id` for orders (soft-delete filtered). -/
def get_by_id (db : DB) (order_id : Nat) : Option Order :=
  db.orders.find? fun o => o.id == order_id && o.deleted == false

/-- `OrderRepository.generate_order_number` (lines 135-141): one shot of
`f"ORD-{date:%Y%m%d}-{random.randint(10000, 99999)}"`; the date string and the
random draw are passed in explicitly.  There is no collision check here. -/
def generate_order_number (date_part : String) (random_part : Nat) : String :=
  "ORD-" ++ date_part ++ "-" ++ toString random_part

/-- `OrderRepository.update_status` (lines 143-155): unconditional
`UPDATE orders SET status = ? WHERE id = ?`, then re-read by id. -/
def update_status (db : DB) (order_id : Nat) (new_status : String) (now : Nat) :
    Option Order × DB :=
  let db1 : DB :=
    { db with
      orders := updateWhere (fun o => o.id == order_id)
        (fun o => { o with status := new_status, updated_at := some now }) db.orders }
  (get_by_id db1 order_id, db1)

/-- `OrderRepository.update_payment_status` (lines 157-168): unconditional
`UPDATE orders SET payment_status = ? WHERE id = ?`. -/
def update_payment_status (db : DB) (order_id : Nat) (payment_status : String)
    (now : Nat) : DB :=
  { db with
    orders := updateWhere (fun o => o.id == order_id)
      (fun o => { o with payment_status := payment_status, updated_at := some now }) db.orders }

/-- `BaseRepository.create` for orders: a plain INSERT; the UNIQUE constraint
on `orders.order_number` makes the commit raise an integrity error when a row
with the same number already exists (nothing in the Python code catches it). -/
def create (db : DB) (order : Order) : Except Unit DB :=
  if db.orders.any (fun o => o.order_number == order.order_number) then
    .error ()
  else
    .ok { db with orders := db.orders ++ [order] }

end OrderRepository

/-- The error taxonomy the service layer raises (`app/core/exceptions.py`),
plus `integrityViolation` for an uncaught unique-constraint failure on commit
and `valueError` for `OrderStatus(order.status)` on an unknown status. -/
inductive SvcError where
  | notFound (resource : String)
  | authorization
  | badRequest (message : String) (available : Option Int)
  | integrityViolation
  | gatewayInit
  | valueError
deriving Repr, DecidableEq

/-- One entry of the `items` list of a create-order request
(`app/schemas/order.py`, `OrderItem`): a product id plus a quantity. -/
structure ReqItem where
  product_id : Nat
  quantity : Int
deriving Repr, DecidableEq

/-- The pydantic bound on `OrderItem.quantity` (`Field(ge=1)`,
`app/schemas/order.py` line 16): enforced at the API boundary, before
`OrderService.create_order` runs. -/
def order_item_schema_ok (quantity : Int) : Bool :=
  1 ≤ quantity

namespace OrderService

/-- The per-item validation/snapshot loop of `OrderService.create_order`
(lines 57-82): fetch the product, reject missing/foreign-store rows as
"Product not found", reject inactive rows, reject `stock_quantity < quantity`
with the available quantity attached, and otherwise snapshot the line item.
Nothing in this loop writes to the database. -/
def checkItems (db : DB) (store_id : Nat) : List ReqItem → Except SvcError (List OrderItem)
  | [] => .ok []
  | item :: rest =>
    match ProductRepository.get_by_id db item.product_id with
    | none => .error (.badRequest "Product not found" none)
    | some product =>
      if product.store_id ≠ store_id then
        .error (.badRequest "Product not found" none)
      else if product.is_active = false then
        .error (.badRequest "Product is not available" none)
      else if product.stock_quantity < item.quantity then
        .error (.badRequest "Insufficient stock" (some product.stock_quantity))
      else
        match checkItems db store_id rest with
        | .error e => .error e
        | .ok items =>
          .ok ({ product_id := product.id
                 product_name := product.name
                 product_price := product.price
                 quantity := item.quantity
                 subtotal := product.price * item.quantity } :: items)

/-- The stock-decrement loop of `OrderService.create_order` (lines 135-141):
one `ProductRepository.update_stock(..., "decrement")` per snapshotted item,
run only after every item was validated and the order/payment rows exist. -/
def applyDecrements (db : DB) : List OrderItem → DB
  | [] => db
  | item :: rest =>
    applyDecrements (ProductRepository.update_stock db item.product_id item.quantity .decrement) rest

/-- `OrderService.create_order` (lines 33-149).  Explicit parameters stand for
the environment the Python code draws on implicitly: `fee_percentage` is
`settings.AGM_FEE_PERCENTAGE`, `order_id`/`payment_id` are the generated row
ids, `date_part`/`random_part` feed `generate_order_number`,
`payment_reference` is the `PAY-...` reference minted inside
`MonnifyService.create_payment`, and `gateway_ok` tells whether that gateway
call succeeds (when it raises, the exception propagates after the order row
was committed but before the payment insert and the stock decrements).
The returned `DB` is the committed state even when an error propagates. -/
def create_order (db : DB) (store_username : String) (items : List ReqItem)
    (discount shipping_fee fee_percentage : Rat)
    (order_id : Nat) (date_part : String) (random_part : Nat)
    (payment_id : Nat) (payment_reference : String) (gateway_ok : Bool) :
    Except SvcError Order × DB :=
  match StoreRepository.get_by_username db store_username with
  | none => (.error (.notFound "Store"), db)
  | some store =>
    if store.is_active = false then (.error (.notFound "Store"), db)
    else
      match checkItems db store.id items with
      | .error e => (.error e, db)
      | .ok order_items =>
        let subtotal : Rat := (order_items.map (·.subtotal)).sum
        let agm_fee : Rat := subtotal * (fee_percentage / 100)
        let total : Rat := subtotal - discount + shipping_fee + agm_fee
        let order : Order :=
          { id := order_id
            store_id := store.id
            order_number := OrderRepository.generate_order_number date_part random_part
            items := order_items
            subtotal := subtotal
            discount := discount
            shipping_fee := shipping_fee
            agm_fee := agm_fee
            total := total
            status := "pending"
            payment_status := "pending"
            deleted := false
            updated_at := none }
        match OrderRepository.create db order with
        | .error _ => (.error .integrityViolation, db)
        | .ok db1 =>
          if gateway_ok = false then (.error .gatewayInit, db1)
          else
            let payment : Payment :=
              { id := payment_id
                order_id := order_id
                amount := total
                status := "pending"
                payment_reference := payment_reference
                monnify_reference := none
                payment_method := none
                paid_at := none
                updated_at := none }
            let db2 : DB := { db1 with payments := db1.payments ++ [payment] }
            (.ok order, applyDecrements db2 order_items)

/-- `ORDER_STATUS_TRANSITIONS` (`app/core/constants.py`, lines 66-74), as the
allowed-next-set of each status; the service reads it with `.get(_, [])`. -/
def allowed_transitions : String → List String
  | "pending" => ["confirmed", "cancelled"]
  | "confirmed" => ["processing", "cancelled"]
  | "processing" => ["shipped"]
  | "shipped" => ["delivered"]
  | "delivered" => ["fulfilled"]
  | _ => []

/-- The seven members of the `OrderStatus` enum; `OrderStatus(order.status)`
raises `ValueError` on anything else. -/
def statusValues : List String :=
  ["pending", "confirmed", "processing", "shipped", "delivered", "fulfilled", "cancelled"]

/-- `OrderService.update_order_status` (lines 219-255): fetch, ownership
check, transition check against `ORDER_STATUS_TRANSITIONS`, then the
unconditional status UPDATE followed by a re-read (whose `None` case raises
NotFound after the update was already committed). -/
def update_order_status (db : DB) (order_id user_id : Nat) (new_status : String)
    (now : Nat) : Except SvcError Order × DB :=
  match OrderRepository.get_with_details db order_id with
  | none => (.error (.notFound "Order"), db)
  | some order =>
    match StoreRepository.get_by_id db order.store_id with
    | none => (.error .authorization, db)
    | some store =>
      if store.user_id ≠ user_id then (.error .authorization, db)
      else if order.status ∉ statusValues then (.error .valueError, db)
      else if new_status ∈ allowed_transitions order.status then
        match OrderRepository.update_status db order_id new_status now with
        | (some order1, db1) => (.ok order1, db1)
        | (none, db1) => (.error (.notFound "Order"), db1)
      else
        (.error (.badRequest ("Cannot transition from " ++ order.status ++ " to " ++ new_status) none), db)

end OrderService

/-- Outcome of the network round-trip inside `MonnifyService.verify_payment`:
the HTTP call may raise (gateway unreachable), return
`requestSuccessful = false`, or return a response body. -/
inductive GatewayOutcome where
  | unreachable
  | notSuccessful
  | ok (paymentStatus : String) (transactionReference : Option String)
      (paymentMethod : Option String)
deriving Repr, DecidableEq

/-- What `MonnifyService.verify_payment` hands back to the payment service. -/
structure MonnifyStatus where
  status : String
  monnify_reference : Option String
  payment_method : Option String
deriving Repr, DecidableEq

namespace MonnifyService

/-- The `status_map` dict of `MonnifyService.verify_payment` (lines 211-218),
with its `.get(_, "pending")` default. -/
def status_map (paymentStatus : String) : String :=
  if paymentStatus = "PAID" then "paid"
  else if paymentStatus = "PENDING" then "pending"
  else if paymentStatus = "OVERPAID" then "paid"
  else if paymentStatus = "PARTIALLY_PAID" then "pending"
  else if paymentStatus = "FAILED" then "failed"
  else if paymentStatus = "EXPIRED" then "expired"
  else "pending"

/-- `MonnifyService.verify_payment` (lines 187-228), production path: a
`requestSuccessful = false` response yields `{"status": "pending"}`, and the
blanket `except` clause turns ANY raised error — the gateway being
unreachable included — into `{"status": "pending", "monnify_reference":
None}` instead of re-raising. -/
def verify_payment : GatewayOutcome → MonnifyStatus
  | .unreachable => { status := "pending", monnify_reference := none, payment_method := none }
  | .notSuccessful => { status := "pending", monnify_reference := none, payment_method := none }
  | .ok ps tx m => { status := status_map ps, monnify_reference := tx, payment_method := m }

end MonnifyService

/-- The verified/status pair `PaymentService.verify_payment` returns. -/
structure VerifyResult where
  verified : Bool
  status : String
deriving Repr, DecidableEq

namespace PaymentService

/-- `PaymentService.verify_payment` (lines 27-56): look up the payment, ask
the gateway, and only when the reported status differs from the stored one
update the payment row; the order's `payment_status` is mirrored ONLY when
the new status is `"paid"`. -/
def verify_payment (db : DB) (reference : String) (gw : GatewayOutcome)
    (now : Nat) : Except SvcError VerifyResult × DB :=
  match PaymentRepository.get_by_reference db reference with
  | none => (.error (.notFound "Payment"), db)
  | some payment =>
    let monnify_status := MonnifyService.verify_payment gw
    if monnify_status.status ≠ payment.status then
      let db1 := PaymentRepository.update_status db payment.id monnify_status.status
        monnify_status.monnify_reference monnify_status.payment_method now
      let db2 :=
        if monnify_status.status = "paid" then
          OrderRepository.update_payment_status db1 payment.order_id "paid" now
        else db1
      (.ok { verified := monnify_status.status == "paid", status := monnify_status.status }, db2)
    else
      (.ok { verified := monnify_status.status == "paid", status := monnify_status.status }, db)

/-- `PaymentService.process_successful_payment` (lines 91-115): look up by
reference (silent no-op when absent), then UNCONDITIONALLY update the payment
row to `"paid"` and mirror `"paid"` onto the order — there is no
`payment.status == outcome` guard on this path, and `amount_paid` is never
read. -/
def process_successful_payment (db : DB) (payment_reference : String)
    (monnify_reference : Option String) (amount_paid : Rat)
    (payment_method : Option String) (now : Nat) : DB :=
  match PaymentRepository.get_by_reference db payment_reference with
  | none => db
  | some payment =>
    let db1 := PaymentRepository.update_status db payment.id "paid"
      monnify_reference payment_method now
    OrderRepository.update_payment_status db1 payment.order_id "paid" now

/-- `PaymentService.process_failed_payment` (lines 117-131). -/
def process_failed_payment (db : DB) (payment_reference : String) (now : Nat) : DB :=
  match PaymentRepository.get_by_reference db payment_reference with
  | none => db
  | some payment =>
    let db1 := PaymentRepository.update_status db payment.id "failed" none none now
    OrderRepository.update_payment_status db1 payment.order_id "failed" now

/-- `PaymentService.process_expired_payment` (lines 133-147). -/
def process_expired_payment (db : DB) (payment_reference : String) (now : Nat) : DB :=
  match PaymentRepository.get_by_reference db payment_reference with
  | none => db
  | some payment =>
    let db1 := PaymentRepository.mark_expired db payment.id now
    OrderRepository.update_payment_status db1 payment.order_id "expired" now

end PaymentService

/-- The transaction-event dispatch of `monnify_webhook`
(`app/api/v1/webhooks.py`, lines 92-127), after signature checking and JSON
parsing: `amount_paid` is `float(event_data.get("amountPaid", 0))` and
`payment_method` is `event_data.get("paymentMethod")`. -/
def monnify_webhook (db : DB) (event_type : String) (payment_reference : String)
    (transaction_reference : Option String) (amount_paid : Rat)
    (payment_method : Option String) (now : Nat) : DB :=
  if event_type = "SUCCESSFUL_TRANSACTION" then
    PaymentService.process_successful_payment db payment_reference
      transaction_reference amount_paid payment_method now
  else if event_type = "FAILED_TRANSACTION" then
    PaymentService.process_failed_payment db payment_reference now
  else if event_type = "EXPIRED_TRANSACTION" then
    PaymentService.process_expired_payment db payment_reference now
  else db

/-- The stock on hand of a product, as the service reads it. -/
def stock_of (db : DB) (product_id : Nat) : Option Int :=
  (ProductRepository.get_by_id db product_id).map (·.stock_quantity)

/-- Total quantity a created order commits to deliver (sum over its embedded
line-item snapshots). -/
def reserved_qty (o : Order) : Int :=
  (o.items.map (·.quantity)).sum

/-! ### Helper lemmas about `updateWhere` (SQL `UPDATE ... WHERE`) -/

theorem updateWhere_mem_of_mem {α : Type} {t : α → Bool} {g : α → α} {l : List α}
    {a : α} (ha : a ∈ l) (hhit : t a = true) : g a ∈ updateWhere t g l := by
  have h := List.mem_map_of_mem (fun a => if t a then g a else a) ha
  simp only [hhit, if_true] at h
  exact h

theorem updateWhere_key_forall {α : Type} {f : α → Nat} {n : Nat} {g : α → α}
    {l : List α} :
    ∀ b ∈ updateWhere (fun a => f a == n) g l,
      f b = n → (∃ a ∈ l, f a = n ∧ b = g a) ∨ (b ∈ l ∧ f b = n) := by
  intro b hb hkey
  rcases List.mem_map.mp hb with ⟨a, ha, hba⟩
  by_cases hhit : (f a == n) = true
  · left
    exact ⟨a, ha, by simpa using hhit, by rw [← hba, if_pos hhit]⟩
  · right
    have : b = a := by rw [← hba, if_neg hhit]
    subst this
    exact ⟨ha, hkey⟩

theorem updateWhere_key_forall_of_preserve {α : Type} {f : α → Nat} {n : Nat}
    {g : α → α} {l : List α} (b : α) (hb : b ∈ updateWhere (fun a => f a == n) g l)
    (hkey : f b = n) (hg : ∀ a, f (g a) = f a) :
    ∃ a ∈ l, f a = n ∧ b = g a := by
  rcases updateWhere_key_forall b hb hkey with h | ⟨hb', _⟩
  · exact h
  · rcases List.mem_map.mp hb with ⟨a, ha, hba⟩
    by_cases hhit : (f a == n) = true
    · exact ⟨a, ha, by simpa using hhit, by rw [← hba, if_pos hhit]⟩
    · have hba' : b = a := by rw [← hba, if_neg hhit]
      subst hba'
      exact absurd (by simpa using hkey) hhit

/-! ### Row-level effect of the three webhook reconciliation paths -/

theorem process_successful_payment_spec (db : DB) (ref : String) (tx : Option String)
    (a : Rat) (pm : Option String) (now : Nat) (p : Payment)
    (hp : PaymentRepository.get_by_reference db ref = some p) :
    (∃ q ∈ (PaymentService.process_successful_payment db ref tx a pm now).payments,
        q.id = p.id ∧ q.status = "paid" ∧ q.paid_at = some now)
    ∧ (∀ q ∈ (PaymentService.process_successful_payment db ref tx a pm now).payments,
        q.id = p.id → q.status = "paid" ∧ q.paid_at = some now ∧ q.updated_at = some now)
    ∧ (∀ o ∈ (PaymentService.process_successful_payment db ref tx a pm now).orders,
        o.id = p.order_id → o.payment_status = "paid" ∧ o.updated_at = some now) := by
  have hmem : p ∈ db.payments := List.mem_of_find?_eq_some hp
  simp only [PaymentService.process_successful_payment, hp,
    PaymentRepository.update_status, OrderRepository.update_payment_status]
  refine ⟨?_, ?_, ?_⟩
  · refine ⟨_, updateWhere_mem_of_mem hmem (by simp), ?_⟩
    simp
  · intro q hq hid
    rcases updateWhere_key_forall_of_preserve (f := Payment.id) q hq hid (fun _ => rfl)
      with ⟨b, _, _, rfl⟩
    simp
  · intro o ho hid
    rcases updateWhere_key_forall_of_preserve (f := Order.id) o ho hid (fun _ => rfl)
      with ⟨b, _, _, rfl⟩
    simp

theorem process_failed_payment_spec (db : DB) (ref : String) (now : Nat) (p : Payment)
    (hp : PaymentRepository.get_by_reference db ref = some p) :
    (∃ q ∈ (PaymentService.process_failed_payment db ref now).payments,
        q.id = p.id ∧ q.status = "failed")
    ∧ (∀ q ∈ (PaymentService.process_failed_payment db ref now).payments,
        q.id = p.id → q.status = "failed")
    ∧ (∀ o ∈ (PaymentService.process_failed_payment db ref now).orders,
        o.id = p.order_id → o.payment_status = "failed") := by
  have hmem : p ∈ db.payments := List.mem_of_find?_eq_some hp
  simp only [PaymentService.process_failed_payment, hp,
    PaymentRepository.update_status, OrderRepository.update_payment_status]
  refine ⟨?_, ?_, ?_⟩
  · refine ⟨_, updateWhere_mem_of_mem hmem (by simp), ?_⟩
    simp
  · intro q hq hid
    rcases updateWhere_key_forall_of_preserve (f := Payment.id) q hq hid (fun _ => rfl)
      with ⟨b, _, _, rfl⟩
    simp
  · intro o ho hid
    rcases updateWhere_key_forall_of_preserve (f := Order.id) o ho hid (fun _ => rfl)
      with ⟨b, _, _, rfl⟩
    simp

theorem process_expired_payment_spec (db : DB) (ref : String) (now : Nat) (p : Payment)
    (hp : PaymentRepository.get_by_reference db ref = some p) :
    (∃ q ∈ (PaymentService.process_expired_payment db ref now).payments,
        q.id = p.id ∧ q.status = "expired")
    ∧ (∀ q ∈ (PaymentService.process_expired_payment db ref now).payments,
        q.id = p.id → q.status = "expired")
    ∧ (∀ o ∈ (PaymentService.process_expired_payment db ref now).orders,
        o.id = p.order_id → o.payment_status = "expired") := by
  have hmem : p ∈ db.payments := List.mem_of_find?_eq_some hp
  simp only [PaymentService.process_expired_payment, hp,
    PaymentRepository.mark_expired, OrderRepository.update_payment_status]
  refine ⟨?_, ?_, ?_⟩
  · refine ⟨_, updateWhere_mem_of_mem hmem (by simp), ?_⟩
    simp
  · intro q hq hid
    rcases updateWhere_key_forall_of_preserve (f := Payment.id) q hq hid (fun _ => rfl)
      with ⟨b, _, _, rfl⟩
    simp
  · intro o ho hid
    rcases updateWhere_key_forall_of_preserve (f := Order.id) o ho hid (fun _ => rfl)
      with ⟨b, _, _, rfl⟩
    simp

/-! ### Concrete scenarios used by the per-claim theorems -/

/-- An active store, its owner being user 1. -/
def scStore : Store :=
  { id := 1, user_id := 1, username := "felicity", is_active := true, deleted := false }

/-- An active product of `scStore` with exactly one unit in stock. -/
def scProduct : Product :=
  { id := 10, store_id := 1, name := "P", price := 1000, stock_quantity := 1,
    is_active := true, deleted := false }

def scDB : DB :=
  { stores := [scStore], products := [scProduct], orders := [], payments := [] }

/-- A payment that has already been reconciled to `paid` at instant 5. -/
def c2Payment : Payment :=
  { id := 2, order_id := 6, amount := 100, status := "paid", payment_reference := "PAY-B",
    monnify_reference := some "MNF-2", payment_method := some "card",
    paid_at := some 5, updated_at := some 5 }

def c2Order : Order :=
  { id := 6, store_id := 1, order_number := "ORD-20260101-10001", items := [],
    subtotal := 100, discount := 0, shipping_fee := 0, agm_fee := 0, total := 100,
    status := "pending", payment_status := "paid", deleted := false, updated_at := some 5 }

def c2DB : DB :=
  { stores := [scStore], products := [], orders := [c2Order], payments := [c2Payment] }

/-- A payment already verified `paid` at instant 3, used for the
gateway-unreachable scenario. -/
def c4Payment : Payment :=
  { id := 1, order_id := 5, amount := 2250, status := "paid", payment_reference := "PAY-A",
    monnify_reference := some "MNF-1", payment_method := some "card",
    paid_at := some 3, updated_at := some 3 }

def c4Order : Order :=
  { id := 5, store_id := 1, order_number := "ORD-20260101-11111", items := [],
    subtotal := 2250, discount := 0, shipping_fee := 0, agm_fee := 0, total := 2250,
    status := "pending", payment_status := "paid", deleted := false, updated_at := some 3 }

def c4DB : DB :=
  { stores := [], products := [], orders := [c4Order], payments := [c4Payment] }

/-! ### C1 — stock is never oversold -/

/-- **C1** (code bug).  The claim says the sum of quantities successfully
reserved by `createOrder` never exceeds the initial stock S, including a
single call whose line-item list names the same product more than once.  On
the code it fails: every line item is validated against the SAME pre-call
`stock_quantity` before any decrement runs, so with stock 1 a cart
`[{P, 1}, {P, 1}]` passes validation, the order is created committing 2
units, and the two saturating decrements leave stock 0 — 2 > 1 units sold. -/
theorem c1_duplicate_line_items_oversell :
    stock_of scDB 10 = some 1
    ∧ (OrderService.create_order scDB "felicity" [⟨10, 1⟩, ⟨10, 1⟩] 0 0 (5/2)
        100 "20261012" 12345 200 "PAY-1" true).1.map reserved_qty = .ok 2
    ∧ stock_of (OrderService.create_order scDB "felicity" [⟨10, 1⟩, ⟨10, 1⟩] 0 0 (5/2)
        100 "20261012" 12345 200 "PAY-1" true).2 10 = some 0 :=
  ⟨rfl, rfl, rfl⟩

/-! ### C4 — gateway unreachable during explicit verify -/

/-- **C4** (code bug).  The claim says an unreachable gateway during an
explicit verify surfaces `GatewayUnavailable` and leaves the payment
unchanged.  In the code, `MonnifyService.verify_payment`'s blanket `except`
returns `{"status": "pending"}` instead of raising, so
`PaymentService.verify_payment` sees `"pending" != "paid"` and OVERWRITES the
paid payment's status with `"pending"` (keeping the old `paid_at`), returning
`verified = False` with no error at all. -/
theorem c4_unreachable_gateway_downgrades_paid_payment :
    (PaymentService.verify_payment c4DB "PAY-A" .unreachable 9).1
      = .ok { verified := false, status := "pending" }
    ∧ ((PaymentRepository.get_by_reference
          (PaymentService.verify_payment c4DB "PAY-A" .unreachable 9).2 "PAY-A").map
        fun p => (p.status, p.paid_at, p.updated_at)) = some ("pending", some 3, some 9)
    ∧ ((PaymentService.verify_payment c4DB "PAY-A" .unreachable 9).2.orders.map
        fun o => (o.id, o.status, o.payment_status)) = [(5, "pending", "paid")] :=
  ⟨rfl, rfl, rfl⟩

/-! ### C2 — idempotent reconciliation of a duplicate paid webhook -/

/-- **C2** (counterexample).  The claim says a duplicate `paid` webhook is a
no-op leaving `paid_at` and `updated_at` unchanged.  On `c2Payment`
(already `paid` with `paid_at = 5`), re-delivering the identical webhook at
instant 7 rewrites the row: `paid_at` and `updated_at` become 7 —
`process_successful_payment` has no `status == outcome` guard. -/
theorem c2_duplicate_webhook_rewrites_paid_at :
    c2Payment.status = "paid" ∧ c2Payment.paid_at = some 5
    ∧ ((PaymentRepository.get_by_reference
          (PaymentService.process_successful_payment c2DB "PAY-B" (some "MNF-2") 100
            (some "card") 7) "PAY-B").map
        fun p => (p.status, p.paid_at, p.updated_at)) = some ("paid", some 7, some 7) :=
  ⟨rfl, rfl, rfl⟩

/-- Helper for C2: re-sending `update_status(id, "paid", own ref, own method)`
to a row that is already `paid` changes exactly `paid_at` and `updated_at`. -/
theorem update_status_resend_row (db : DB) (p : Payment) (now : Nat)
    (hmem : p ∈ db.payments) (hpaid : p.status = "paid") :
    { p with paid_at := some now, updated_at := some now }
      ∈ (PaymentRepository.update_status db p.id "paid" p.monnify_reference
          p.payment_method now).payments := by
  simp only [PaymentRepository.update_status]
  have h := updateWhere_mem_of_mem (l := db.payments) (a := p)
    (t := fun q => q.id == p.id)
    (g := fun q =>
      { q with
        status := "paid"
        monnify_reference :=
          if truthy p.monnify_reference then p.monnify_reference else q.monnify_reference
        payment_method :=
          if truthy p.payment_method then p.payment_method else q.payment_method
        paid_at := if ("paid" : String) = "paid" then some now else q.paid_at
        updated_at := some now }) hmem (by simp)
  have hrow : ({ p with
      status := "paid"
      monnify_reference :=
        if truthy p.monnify_reference then p.monnify_reference else p.monnify_reference
      payment_method :=
        if truthy p.payment_method then p.payment_method else p.payment_method
      paid_at := if ("paid" : String) = "paid" then some now else p.paid_at
      updated_at := some now } : Payment)
      = { p with paid_at := some now, updated_at := some now } := by
    cases p
    simp_all
  rw [← hrow]
  exact h

/-- **C2** (amended).  For a payment already `paid`, a second identical
successful-payment delivery leaves `status`, `monnify_reference`,
`payment_method`, `amount` and the order's `payment_status` value unchanged,
but it is NOT a no-op: it re-executes both row updates, overwriting the
payment's `paid_at` and `updated_at` (and the order's `updated_at`) with the
delivery time. -/
theorem c2_duplicate_webhook_rewrites_only_timestamps (db : DB) (ref : String)
    (amount_paid : Rat) (now : Nat) (p : Payment)
    (hp : PaymentRepository.get_by_reference db ref = some p)
    (hpaid : p.status = "paid") :
    { p with paid_at := some now, updated_at := some now }
      ∈ (PaymentService.process_successful_payment db ref p.monnify_reference
          amount_paid p.payment_method now).payments
    ∧ ∀ o ∈ (PaymentService.process_successful_payment db ref p.monnify_reference
          amount_paid p.payment_method now).orders,
        o.id = p.order_id → o.payment_status = "paid" ∧ o.updated_at = some now := by
  have hmem : p ∈ db.payments := List.mem_of_find?_eq_some hp
  constructor
  · simp only [PaymentService.process_successful_payment, hp,
      OrderRepository.update_payment_status]
    exact update_status_resend_row db p now hmem hpaid
  · exact (process_successful_payment_spec db ref p.monnify_reference amount_paid
      p.payment_method now p hp).2.2

/-- Witness for C2 (amended): the theorem applied to the concrete duplicate
delivery of `c2DB`'s paid webhook at instant 7. -/
theorem c2_duplicate_webhook_rewrites_only_timestamps_witness :
    PaymentRepository.get_by_reference c2DB "PAY-B" = some c2Payment
    ∧ c2Payment.status = "paid"
    ∧ { c2Payment with paid_at := some 7, updated_at := some 7 }
        ∈ (PaymentService.process_successful_payment c2DB "PAY-B"
            c2Payment.monnify_reference 100 c2Payment.payment_method 7).payments :=
  ⟨rfl, rfl,
    (c2_duplicate_webhook_rewrites_only_timestamps c2DB "PAY-B" 100 7 c2Payment rfl rfl).1⟩

/-! ### C5 — payment / order payment_status lockstep -/

/-- A pending payment and its pending order, for the verify-path scenarios. -/
def c5Payment : Payment :=
  { id := 3, order_id := 7, amount := 500, status := "pending", payment_reference := "PAY-C",
    monnify_reference := none, payment_method := none, paid_at := none, updated_at := none }

def c5Order : Order :=
  { id := 7, store_id := 1, order_number := "ORD-20260101-10002", items := [],
    subtotal := 500, discount := 0, shipping_fee := 0, agm_fee := 0, total := 500,
    status := "pending", payment_status := "pending", deleted := false, updated_at := none }

def c5DB : DB :=
  { stores := [], products := [], orders := [c5Order], payments := [c5Payment] }

/-- **C5** (counterexample).  The claim says the order's `payment_status` is
kept in lockstep with the payment's status for EVERY outcome, explicit verify
included.  On the code, `PaymentService.verify_payment` mirrors onto the
order only when the new status is `"paid"`: verifying `c5Payment` (pending)
against a gateway answer `FAILED` flips the payment row to `"failed"` while
the order's `payment_status` stays `"pending"`. -/
theorem c5_verify_failed_breaks_lockstep :
    ((PaymentRepository.get_by_reference
        (PaymentService.verify_payment c5DB "PAY-C"
          (.ok "FAILED" (some "MNF-3") (some "transfer")) 9).2 "PAY-C").map
      (·.status)) = some "failed"
    ∧ ((PaymentService.verify_payment c5DB "PAY-C"
          (.ok "FAILED" (some "MNF-3") (some "transfer")) 9).2.orders.map
        fun o => (o.id, o.payment_status)) = [(7, "pending")] :=
  ⟨rfl, rfl⟩

/-- **C5** (amended).  Lockstep holds after every completed WEBHOOK
reconciliation (`paid`/`failed`/`expired`): the payment rows and the order's
`payment_status` end with the same mapped outcome.  After an EXPLICIT verify
that observed a changed gateway status, however, the payment row is updated
but the order rows are mirrored only for `"paid"`: for any other observed
status the orders table is left entirely unchanged. -/
theorem c5_lockstep_webhooks_but_not_verify :
    (∀ (db : DB) (ref : String) (tx : Option String) (a : Rat) (pm : Option String)
        (now : Nat) (p : Payment) (ev target : String),
      PaymentRepository.get_by_reference db ref = some p →
      (ev, target) ∈ [("SUCCESSFUL_TRANSACTION", "paid"), ("FAILED_TRANSACTION", "failed"),
        ("EXPIRED_TRANSACTION", "expired")] →
      (∃ q ∈ (monnify_webhook db ev ref tx a pm now).payments, q.id = p.id ∧ q.status = target)
      ∧ (∀ q ∈ (monnify_webhook db ev ref tx a pm now).payments, q.id = p.id → q.status = target)
      ∧ (∀ o ∈ (monnify_webhook db ev ref tx a pm now).orders,
          o.id = p.order_id → o.payment_status = target))
    ∧ (∀ (db : DB) (ref : String) (gw : GatewayOutcome) (now : Nat) (p : Payment),
      PaymentRepository.get_by_reference db ref = some p →
      (MonnifyService.verify_payment gw).status ≠ p.status →
      (MonnifyService.verify_payment gw).status ≠ "paid" →
      (PaymentService.verify_payment db ref gw now).2.orders = db.orders
      ∧ ∀ q ∈ (PaymentService.verify_payment db ref gw now).2.payments,
          q.id = p.id → q.status = (MonnifyService.verify_payment gw).status) := by
  constructor
  · intro db ref tx a pm now p ev target hp hev
    simp only [List.mem_cons, List.mem_singleton, Prod.mk.injEq, List.not_mem_nil,
      or_false] at hev
    rcases hev with ⟨rfl, rfl⟩ | ⟨rfl, rfl⟩ | ⟨rfl, rfl⟩
    · have h := process_successful_payment_spec db ref tx a pm now p hp
      refine ⟨?_, ?_, ?_⟩
      · rcases h.1 with ⟨q, hq, h1, h2, _⟩
        exact ⟨q, by simpa [monnify_webhook] using hq, h1, h2⟩
      · intro q hq hid
        exact (h.2.1 q (by simpa [monnify_webhook] using hq) hid).1
      · intro o ho hid
        exact (h.2.2 o (by simpa [monnify_webhook] using ho) hid).1
    · have h := process_failed_payment_spec db ref now p hp
      refine ⟨?_, ?_, ?_⟩
      · rcases h.1 with ⟨q, hq, h1, h2⟩
        exact ⟨q, by simpa [monnify_webhook] using hq, h1, h2⟩
      · intro q hq hid
        exact h.2.1 q (by simpa [monnify_webhook] using hq) hid
      · intro o ho hid
        exact h.2.2 o (by simpa [monnify_webhook] using ho) hid
    · have h := process_expired_payment_spec db ref now p hp
      refine ⟨?_, ?_, ?_⟩
      · rcases h.1 with ⟨q, hq, h1, h2⟩
        exact ⟨q, by simpa [monnify_webhook] using hq, h1, h2⟩
      · intro q hq hid
        exact h.2.1 q (by simpa [monnify_webhook] using hq) hid
      · intro o ho hid
        exact h.2.2 o (by simpa [monnify_webhook] using ho) hid
  · intro db ref gw now p hp hne hnp
    simp only [PaymentService.verify_payment, hp, if_pos hne, if_neg hnp,
      PaymentRepository.update_status]
    refine ⟨by trivial, ?_⟩
    intro q hq hid
    rcases updateWhere_key_forall_of_preserve (f := Payment.id) q hq hid (fun _ => rfl)
      with ⟨b, _, _, rfl⟩
    rfl

/-- Witness for C5 (amended): the webhook half at a concrete failed webhook
on `c5DB`, and the verify half at the concrete `FAILED` gateway answer. -/
theorem c5_lockstep_webhooks_but_not_verify_witness :
    PaymentRepository.get_by_reference c5DB "PAY-C" = some c5Payment
    ∧ (∀ o ∈ (monnify_webhook c5DB "FAILED_TRANSACTION" "PAY-C" none 0 none 9).orders,
        o.id = 7 → o.payment_status = "failed")
    ∧ (PaymentService.verify_payment c5DB "PAY-C"
        (.ok "EXPIRED" none none) 9).2.orders = c5DB.orders :=
  ⟨rfl,
    (c5_lockstep_webhooks_but_not_verify.1 c5DB "PAY-C" none 0 none 9 c5Payment
      "FAILED_TRANSACTION" "failed" rfl (by simp)).2.2,
    (c5_lockstep_webhooks_but_not_verify.2 c5DB "PAY-C" (.ok "EXPIRED" none none) 9
      c5Payment rfl (by decide) (by decide)).1⟩

/-! ### C3 — compensating release on partial failure -/

/-- **C3** (confirmed).  If any line item fails its availability check
(missing, foreign store, inactive, or insufficient stock), `create_order`
propagates that error with the database exactly as it was before the call:
in this code the whole validation loop runs before ANY decrement, so there is
never a partial reservation to compensate — in particular every earlier
item's `stock_quantity` equals its pre-call value. -/
theorem c3_availability_failure_leaves_stock_untouched (db : DB)
    (store_username : String) (items : List ReqItem)
    (discount shipping_fee fee_percentage : Rat) (order_id : Nat) (date_part : String)
    (random_part : Nat) (payment_id : Nat) (payment_reference : String)
    (gateway_ok : Bool) (store : Store) (e : SvcError)
    (hstore : StoreRepository.get_by_username db store_username = some store)
    (hact : store.is_active = true)
    (hcheck : OrderService.checkItems db store.id items = .error e) :
    OrderService.create_order db store_username items discount shipping_fee
      fee_percentage order_id date_part random_part payment_id payment_reference
      gateway_ok = (.error e, db) := by
  simp [OrderService.create_order, hstore, hact, hcheck]

/-- A second active product with only one unit left, for the short-stock
witness cart. -/
def c3Product1 : Product :=
  { id := 21, store_id := 1, name := "A", price := 100, stock_quantity := 5,
    is_active := true, deleted := false }

def c3Product2 : Product :=
  { id := 22, store_id := 1, name := "B", price := 200, stock_quantity := 1,
    is_active := true, deleted := false }

def c3DB : DB :=
  { stores := [scStore], products := [c3Product1, c3Product2], orders := [], payments := [] }

/-- Witness for C3: a 2-item checkout where item 2 has insufficient stock;
the failed call returns the untouched pre-call database. -/
theorem c3_availability_failure_leaves_stock_untouched_witness :
    StoreRepository.get_by_username c3DB "felicity" = some scStore
    ∧ scStore.is_active = true
    ∧ OrderService.checkItems c3DB scStore.id [⟨21, 2⟩, ⟨22, 3⟩]
        = .error (.badRequest "Insufficient stock" (some 1))
    ∧ OrderService.create_order c3DB "felicity" [⟨21, 2⟩, ⟨22, 3⟩] 0 0 0 101
        "20261012" 11111 201 "PAY-2" true
        = (.error (.badRequest "Insufficient stock" (some 1)), c3DB) :=
  ⟨rfl, rfl, rfl,
    c3_availability_failure_leaves_stock_untouched c3DB "felicity" [⟨21, 2⟩, ⟨22, 3⟩]
      0 0 0 101 "20261012" 11111 201 "PAY-2" true scStore
      (.badRequest "Insufficient stock" (some 1)) rfl rfl rfl⟩

/-! ### C6 — transition legality -/

/-- The allowed-transition table exactly as the claim lists it. -/
def claimEdges : List (String × String) :=
  [("pending", "confirmed"), ("pending", "cancelled"), ("confirmed", "processing"),
   ("confirmed", "cancelled"), ("processing", "shipped"), ("shipped", "delivered"),
   ("delivered", "fulfilled")]

/-- `ORDER_STATUS_TRANSITIONS` agrees edge-for-edge with the claim's table. -/
theorem allowed_iff_edge (s t : String) (hs : s ∈ OrderService.statusValues) :
    t ∈ OrderService.allowed_transitions s ↔ (s, t) ∈ claimEdges := by
  simp only [OrderService.statusValues, List.mem_cons, List.not_mem_nil, or_false] at hs
  rcases hs with rfl | rfl | rfl | rfl | rfl | rfl | rfl <;>
    simp [OrderService.allowed_transitions, claimEdges]

/-- Updating an order's status always re-reads a row afterwards when the
original row is not soft-deleted (`update_status` re-fetches by id). -/
theorem order_update_status_refetch (db : DB) (order_id : Nat) (new_status : String)
    (now : Nat) (order : Order) (hmem : order ∈ db.orders)
    (hoid : (order.id == order_id) = true) (h5 : order.deleted = false) :
    ∃ o1, (OrderRepository.update_status db order_id new_status now).1 = some o1 := by
  simp only [OrderRepository.update_status, OrderRepository.get_by_id]
  apply Option.isSome_iff_exists.mp
  apply List.find?_isSome.mpr
  refine ⟨{ order with status := new_status, updated_at := some now },
    updateWhere_mem_of_mem hmem hoid, ?_⟩
  simp_all

/-- **C6** (confirmed).  For an order owned by the requesting user whose
status is one of the seven machine states (and not soft-deleted),
`update_order_status` succeeds exactly when `(current, requested)` is an edge
of the claim's table, and any non-edge — self-transitions and exits from the
terminal states included — fails with the invalid-transition error. -/
theorem c6_transition_legality (db : DB) (order_id user_id : Nat) (new_status : String)
    (now : Nat) (order : Order) (store : Store)
    (h1 : OrderRepository.get_with_details db order_id = some order)
    (h2 : StoreRepository.get_by_id db order.store_id = some store)
    (h3 : store.user_id = user_id)
    (h4 : order.status ∈ OrderService.statusValues)
    (h5 : order.deleted = false) :
    ((∃ o1, (OrderService.update_order_status db order_id user_id new_status now).1 = .ok o1)
      ↔ (order.status, new_status) ∈ claimEdges)
    ∧ ((order.status, new_status) ∉ claimEdges →
        (OrderService.update_order_status db order_id user_id new_status now).1
          = .error (.badRequest
              ("Cannot transition from " ++ order.status ++ " to " ++ new_status) none)) := by
  have hoid : (order.id == order_id) = true := by simpa using List.find?_some h1
  have hmem : order ∈ db.orders := List.mem_of_find?_eq_some h1
  by_cases htr : new_status ∈ OrderService.allowed_transitions order.status
  · have hedge : (order.status, new_status) ∈ claimEdges :=
      (allowed_iff_edge _ _ h4).mp htr
    obtain ⟨o1, ho1⟩ :=
      order_update_status_refetch db order_id new_status now order hmem hoid h5
    rcases hres : OrderRepository.update_status db order_id new_status now with ⟨fst, snd⟩
    rw [hres] at ho1
    simp only at ho1
    subst ho1
    have hval : (OrderService.update_order_status db order_id user_id new_status now).1
        = .ok o1 := by
      simp [OrderService.update_order_status, h1, h2, h3, h4, htr, hres]
    constructor
    · exact ⟨fun _ => hedge, fun _ => ⟨o1, hval⟩⟩
    · intro hne
      exact absurd hedge hne
  · have hedge : (order.status, new_status) ∉ claimEdges :=
      fun h => htr ((allowed_iff_edge _ _ h4).mpr h)
    have hval : (OrderService.update_order_status db order_id user_id new_status now).1
        = .error (.badRequest
            ("Cannot transition from " ++ order.status ++ " to " ++ new_status) none) := by
      simp [OrderService.update_order_status, h1, h2, h3, h4, htr]
    constructor
    · constructor
      · rintro ⟨o1, ho1⟩
        rw [hval] at ho1
        exact absurd ho1 (by simp)
      · intro h
        exact absurd h hedge
    · intro _
      exact hval

/-- A plain pending order of `scStore`, for the transition witness. -/
def c6Order : Order :=
  { id := 30, store_id := 1, order_number := "ORD-20260101-10003", items := [],
    subtotal := 0, discount := 0, shipping_fee := 0, agm_fee := 0, total := 0,
    status := "pending", payment_status := "pending", deleted := false, updated_at := none }

def c6DB : DB :=
  { stores := [scStore], products := [], orders := [c6Order], payments := [] }

/-- Witness for C6: user 1 moving the pending order to `confirmed` — an edge
of the table — so the call succeeds. -/
theorem c6_transition_legality_witness :
    OrderRepository.get_with_details c6DB 30 = some c6Order
    ∧ c6Order.status ∈ OrderService.statusValues
    ∧ ((∃ o1, (OrderService.update_order_status c6DB 30 1 "confirmed" 9).1 = .ok o1)
        ↔ (c6Order.status, "confirmed") ∈ claimEdges) :=
  ⟨rfl, by decide,
    (c6_transition_legality c6DB 30 1 "confirmed" 9 c6Order scStore rfl rfl rfl
      (by decide) rfl).1⟩

/-! ### C7 — order-number generation -/

/-- An active product and an already-persisted order whose number the next
generation draw will collide with. -/
def c7Product : Product :=
  { id := 41, store_id := 1, name := "C", price := 50, stock_quantity := 5,
    is_active := true, deleted := false }

def c7Existing : Order :=
  { id := 40, store_id := 1, order_number := "ORD-20260101-12345", items := [],
    subtotal := 0, discount := 0, shipping_fee := 0, agm_fee := 0, total := 0,
    status := "pending", payment_status := "pending", deleted := false, updated_at := none }

def c7DB : DB :=
  { stores := [scStore], products := [c7Product], orders := [c7Existing], payments := [] }

/-- **C7** (counterexample).  The claim says a unique-constraint collision is
retried a bounded number of times and then fails `OrderNumberExhausted`,
never surfacing as an unhandled persistence error.  In the code
`generate_order_number` draws once and `create` just inserts: when the draw
collides with `c7Existing`'s number the call fails with the raw integrity
error — no retry, no `OrderNumberExhausted`. -/
theorem c7_collision_is_unhandled_persistence_error :
    OrderService.create_order c7DB "felicity" [⟨41, 1⟩] 0 0 0 42 "20260101" 12345
      43 "PAY-3" true = (.error .integrityViolation, c7DB) :=
  rfl

/-- **C7** (amended).  Every generated order number has the shape
`ORD-<date>-<random draw>` (the draw `random.randint(10000, 99999)` is 5
digits), but there is no collision handling: when the freshly generated
number equals an existing order's number, `create_order` surfaces the
unique-constraint persistence failure directly and leaves the database
unchanged, so uniqueness is not enforced by retry. -/
theorem c7_order_number_format_and_unhandled_collision (db : DB)
    (store_username : String) (items : List ReqItem)
    (discount shipping_fee fee_percentage : Rat) (order_id : Nat) (date_part : String)
    (random_part : Nat) (payment_id : Nat) (payment_reference : String)
    (gateway_ok : Bool) (store : Store)
    (hstore : StoreRepository.get_by_username db store_username = some store)
    (hact : store.is_active = true)
    (hcheck : (OrderService.checkItems db store.id items).isOk = true)
    (hcollision : db.orders.any (fun o =>
        o.order_number == OrderRepository.generate_order_number date_part random_part)
      = true) :
    OrderRepository.generate_order_number date_part random_part
        = "ORD-" ++ date_part ++ "-" ++ toString random_part
    ∧ OrderService.create_order db store_username items discount shipping_fee
        fee_percentage order_id date_part random_part payment_id payment_reference
        gateway_ok = (.error .integrityViolation, db) := by
  refine ⟨rfl, ?_⟩
  rcases hck : OrderService.checkItems db store.id items with e | oitems
  · rw [hck] at hcheck
    exact absurd hcheck (by simp [Except.isOk, Except.toBool])
  · simp [OrderService.create_order, hstore, hact, hck, OrderRepository.create, hcollision]

/-- Witness for C7 (amended): the concrete colliding draw over `c7DB`. -/
theorem c7_order_number_format_and_unhandled_collision_witness :
    StoreRepository.get_by_username c7DB "felicity" = some scStore
    ∧ (OrderService.checkItems c7DB scStore.id [⟨41, 1⟩]).isOk = true
    ∧ c7DB.orders.any (fun o =>
        o.order_number == OrderRepository.generate_order_number "20260101" 12345) = true
    ∧ OrderService.create_order c7DB "felicity" [⟨41, 1⟩] 0 0 0 42 "20260101" 12345
        43 "PAY-3" true = (.error .integrityViolation, c7DB) :=
  ⟨rfl, rfl, rfl,
    (c7_order_number_format_and_unhandled_collision c7DB "felicity" [⟨41, 1⟩] 0 0 0 42
      "20260101" 12345 43 "PAY-3" true scStore rfl rfl rfl rfl).2⟩

/-! ### C8 — quantity/price validation of the pricing computation -/

/-- An active product used for the zero-quantity cart. -/
def c8Product : Product :=
  { id := 51, store_id := 1, name := "D", price := 40, stock_quantity := 5,
    is_active := true, deleted := false }

def c8DB : DB :=
  { stores := [scStore], products := [c8Product], orders := [], payments := [] }

/-- **C8** (counterexample).  The claim says the pricing computation inside
order creation fails with `InvalidLineItem` whenever a line item has
quantity ≤ 0.  On the code, a quantity-0 item sails through: the only check
is `stock_quantity < quantity` (false for 0 ≤ stock), the call SUCCEEDS,
creating an order with a zero-quantity line item and leaving stock at 5. -/
theorem c8_zero_quantity_creates_order :
    (OrderService.create_order c8DB "felicity" [⟨51, 0⟩] 0 0 0 52 "20261012" 22222
      53 "PAY-4" true).1.isOk = true
    ∧ (OrderService.create_order c8DB "felicity" [⟨51, 0⟩] 0 0 0 52 "20261012" 22222
        53 "PAY-4" true).1.map (fun o => o.items.map (·.quantity)) = .ok [0]
    ∧ stock_of (OrderService.create_order c8DB "felicity" [⟨51, 0⟩] 0 0 0 52 "20261012"
        22222 53 "PAY-4" true).2 51 = some 5 :=
  ⟨rfl, rfl, rfl⟩

/-- **C8** (amended).  Quantity ≤ 0 is rejected only at the API boundary, by
the request schema's `Field(ge=1)` bound — not by the pricing computation:
a quantity ≤ 0 line item that reaches the service passes every check in
`create_order`'s validation loop (no `InvalidLineItem` exists in the code),
and a negative price is never checked anywhere. -/
theorem c8_quantity_checked_only_by_schema (db : DB) (store_id pid : Nat) (q : Int)
    (p : Product) (hq : q ≤ 0)
    (hp : ProductRepository.get_by_id db pid = some p)
    (hsid : p.store_id = store_id)
    (hact : p.is_active = true)
    (hstock : 0 ≤ p.stock_quantity) :
    order_item_schema_ok q = false
    ∧ OrderService.checkItems db store_id [⟨pid, q⟩]
        = .ok [{ product_id := p.id, product_name := p.name, product_price := p.price,
                 quantity := q, subtotal := p.price * q }] := by
  constructor
  · simp only [order_item_schema_ok, decide_eq_false_iff_not, not_le]
    omega
  · have hlt : ¬(p.stock_quantity < q) := by omega
    simp [OrderService.checkItems, hp, hsid, hact, hlt]

/-- Witness for C8 (amended): quantity 0 against `c8Product` (stock 5). -/
theorem c8_quantity_checked_only_by_schema_witness :
    ProductRepository.get_by_id c8DB 51 = some c8Product
    ∧ order_item_schema_ok 0 = false
    ∧ (OrderService.checkItems c8DB 1 [⟨51, 0⟩]).isOk = true := by
  refine ⟨rfl, (c8_quantity_checked_only_by_schema c8DB 1 51 0 c8Product (by decide)
    rfl rfl rfl (by decide)).1, ?_⟩
  rw [(c8_quantity_checked_only_by_schema c8DB 1 51 0 c8Product (by decide)
    rfl rfl rfl (by decide)).2]
  rfl

/-! ### C9 — amountPaid is never compared -/

/-- **C9** (confirmed).  The successful-payment path never reads
`amount_paid`: the webhook's effect is literally independent of it, and for
any existing `payment_reference` — whatever the reported amount, 0 and
underpayments included — the payment rows with the payment's id end `"paid"`
and the order rows with its `order_id` end with `payment_status = "paid"`. -/
theorem c9_amount_paid_never_compared (db : DB) (ref : String) (tx : Option String)
    (pm : Option String) (now : Nat) (p : Payment)
    (hp : PaymentRepository.get_by_reference db ref = some p) :
    (∀ a b : Rat, monnify_webhook db "SUCCESSFUL_TRANSACTION" ref tx a pm now
        = monnify_webhook db "SUCCESSFUL_TRANSACTION" ref tx b pm now)
    ∧ ∀ a : Rat,
        (∃ q ∈ (monnify_webhook db "SUCCESSFUL_TRANSACTION" ref tx a pm now).payments,
            q.id = p.id ∧ q.status = "paid")
        ∧ (∀ q ∈ (monnify_webhook db "SUCCESSFUL_TRANSACTION" ref tx a pm now).payments,
            q.id = p.id → q.status = "paid")
        ∧ (∀ o ∈ (monnify_webhook db "SUCCESSFUL_TRANSACTION" ref tx a pm now).orders,
            o.id = p.order_id → o.payment_status = "paid") := by
  constructor
  · intro a b
    rfl
  · intro a
    have h := process_successful_payment_spec db ref tx a pm now p hp
    refine ⟨?_, ?_, ?_⟩
    · rcases h.1 with ⟨q, hq, h1, h2, _⟩
      exact ⟨q, by simpa [monnify_webhook] using hq, h1, h2⟩
    · intro q hq hid
      exact (h.2.1 q (by simpa [monnify_webhook] using hq) hid).1
    · intro o ho hid
      exact (h.2.2 o (by simpa [monnify_webhook] using ho) hid).1

/-- Witness for C9: a `SUCCESSFUL_TRANSACTION` webhook reporting
`amountPaid = 0` against the pending 500-unit payment of `c5DB` still marks
everything `paid`. -/
theorem c9_amount_paid_never_compared_witness :
    PaymentRepository.get_by_reference c5DB "PAY-C" = some c5Payment
    ∧ ∀ q ∈ (monnify_webhook c5DB "SUCCESSFUL_TRANSACTION" "PAY-C" (some "MNF-9") 0
        (some "card") 9).payments, q.id = c5Payment.id → q.status = "paid" :=
  ⟨rfl,
    ((c9_amount_paid_never_compared c5DB "PAY-C" (some "MNF-9") (some "card") 9
      c5Payment rfl).2 0).2.1⟩

/-! ### C10 — updateStatus never touches stock -/

/-- **C10** (confirmed).  `update_order_status` never modifies any product
row, whatever the requested target status — `"cancelled"` included: the
products table of the post-state is the pre-state's, so stock decremented at
creation stays decremented when an order is cancelled through this path
instead of `cancel_order`. -/
theorem c10_update_order_status_preserves_products (db : DB) (order_id user_id : Nat)
    (new_status : String) (now : Nat) :
    (OrderService.update_order_status db order_id user_id new_status now).2.products
      = db.products := by
  unfold OrderService.update_order_status
  repeat' split
  all_goals try rfl
  all_goals rename_i heq
  all_goals exact (congrArg (fun r : Option Order × DB => r.2.products) heq).symm

end AGM
